import Mathlib

/-!
# Verification of the update lifecycle code in `src-tauri/src/updater.rs`

The source file exposes three entry points:

* `setup_updater(app)` — spawns one background task that sleeps 10 seconds,
  obtains the updater handle, runs one check and, on a positive result,
  emits `update-available` to the `main` window; it always returns `Ok(())`.
* `check_for_updates(app)` — a command that obtains the updater handle, runs
  a check, emits `update-available` or `no-update-available` to the `main`
  window and returns the metadata (or an error string).
* `install_update(app)` — a command that obtains the updater handle, re-runs
  the check, emits `update-download-start`, accumulates per-chunk progress
  percentages (only logged, never emitted) and forwards the platform
  download-and-install result.

The embedding below makes the external collaborators explicit inputs:

* `updaterAvail : Except String Unit` — outcome of `app.updater()`;
* `checkResult : Except String (Option Update)` — outcome of
  `updater.check().await`, with error already rendered by `to_string`;
* `mainWindow : Bool` — whether `get_webview_window("main")` returns a window;
* `chunks : List (Nat × Option Nat)` — the `(chunk_length, content_length)`
  arguments of each invocation of the progress closure;
* `downloadResult : Except String Unit` — outcome of
  `download_and_install`, error rendered by `to_string`.

Every function returns the list of events it emits (in order) together with
its Rust return value; `install_update` additionally returns the list of
progress percentages its closure computes, one per chunk.  Percentages are
modelled in `ℚ`; every value the claims mention is exactly representable in
`f64`, so the rational model agrees with the source arithmetic there.
-/

namespace Updater

/-- The fields of `tauri_plugin_updater::Update` that `updater.rs` reads:
`version`, `current_version`, `body`, `date` (already rendered to a string)
and `download_size()`. -/
structure Update where
  version : String
  current_version : String
  body : Option String
  date : Option String
  download_size : Option Nat
deriving DecidableEq

/-- `UpdateInfo` as declared in `updater.rs` (the payload serialized to the
frontend). -/
structure UpdateInfo where
  version : String
  current_version : String
  body : Option String
  date : Option String
deriving DecidableEq

/-- Construction of `UpdateInfo` from an `Update`, as written at both call
sites in `updater.rs` (`version`, `current_version`, `body` cloned, `date`
rendered). -/
def toUpdateInfo (u : Update) : UpdateInfo :=
  { version := u.version
    current_version := u.current_version
    body := u.body
    date := u.date }

/-- The outbound events named in the spec's external-interface table.  The
source only ever emits the first three; the remaining constructors exist so
that statements about their absence can be made. -/
inductive Event where
  | updateAvailable (info : UpdateInfo)
  | noUpdateAvailable
  | updateDownloadStart
  | updateDownloadProgress (percent : ℚ)
  | updateInstalled
  | updateFailed (kind : String)
deriving DecidableEq

/-- Is this event an `update-download-progress` message? -/
def Event.isProgressMsg : Event → Bool
  | .updateDownloadProgress _ => true
  | _ => false

/-- Is this event a terminal message (`update-installed` or `update-failed`)? -/
def Event.isTerminalMsg : Event → Bool
  | .updateInstalled => true
  | .updateFailed _ => true
  | _ => false

/-- Is this event an `update-available` message? -/
def Event.isAvailableMsg : Event → Bool
  | .updateAvailable _ => true
  | _ => false

/-- `check_for_updates` (updater.rs lines 50–81): obtain the updater handle
(`map_err(to_string)?`), run the check; on `Some` emit `update-available` to
the main window (if present) and return the info; on `None` emit
`no-update-available` (if the window is present) and return `None`; on error
return the rendered error. -/
def check_for_updates (updaterAvail : Except String Unit)
    (checkResult : Except String (Option Update)) (mainWindow : Bool) :
    List Event × Except String (Option UpdateInfo) :=
  match updaterAvail with
  | .error e => ([], .error e)
  | .ok _ =>
    match checkResult with
    | .ok (some update) =>
      let info := toUpdateInfo update
      ((if mainWindow then [Event.updateAvailable info] else []), .ok (some info))
    | .ok none =>
      ((if mainWindow then [Event.noUpdateAvailable] else []), .ok none)
    | .error e => ([], .error e)

/-- The progress closure's percentage for one chunk (updater.rs lines
101–109): with `downloaded` already incremented by the chunk length, use the
chunk's reported `content_length` if present, else the metadata's
`download_size`, else report `0.0`. -/
def chunkProgress (downloaded : Nat) (content_length : Option Nat)
    (total_size : Option Nat) : ℚ :=
  match content_length with
  | some total => (downloaded : ℚ) / (total : ℚ) * 100
  | none =>
    match total_size with
    | some size => (downloaded : ℚ) / (size : ℚ) * 100
    | none => 0

/-- The sequence of percentages the progress closure computes over a chunk
stream, starting from `downloaded` accumulated bytes (updater.rs lines
96–113): each call first adds `chunk_length` to `downloaded`, then computes
the percentage. -/
def progressLog (downloaded : Nat) (total_size : Option Nat) :
    List (Nat × Option Nat) → List ℚ
  | [] => []
  | (chunk_length, content_length) :: rest =>
    chunkProgress (downloaded + chunk_length) content_length total_size ::
      progressLog (downloaded + chunk_length) total_size rest

/-- `install_update` (updater.rs lines 84–126): obtain the updater handle,
re-run the check; on `Some update` emit `update-download-start` to the main
window (if present), run `download_and_install` with the progress closure
(whose computed percentages are only logged) and forward its result; on
`None` fail with the string `"No update available"`; on a check error return
the rendered error.  The function reads no process-wide state. -/
def install_update (updaterAvail : Except String Unit)
    (checkResult : Except String (Option Update)) (mainWindow : Bool)
    (chunks : List (Nat × Option Nat)) (downloadResult : Except String Unit) :
    List Event × List ℚ × Except String Unit :=
  match updaterAvail with
  | .error e => ([], [], .error e)
  | .ok _ =>
    match checkResult with
    | .ok (some update) =>
      ((if mainWindow then [Event.updateDownloadStart] else []),
       progressLog 0 update.download_size chunks,
       downloadResult)
    | .ok none => ([], [], .error "No update available")
    | .error e => ([], [], .error e)

/-- The observable actions of the task spawned by `setup_updater`. -/
inductive TaskAction where
  | sleep (secs : Nat)
  | check
deriving DecidableEq, BEq

/-- The action trace of the background task spawned by `setup_updater`
(updater.rs lines 17–44): sleep 10 seconds, then — only if the updater
handle is available — run exactly one check.  The trace does not depend on
the check's outcome: no branch loops back to a second check. -/
def backgroundTaskActions (updaterAvail : Except String Unit)
    (_checkResult : Except String (Option Update)) : List TaskAction :=
  match updaterAvail with
  | .ok _ => [TaskAction.sleep 10, TaskAction.check]
  | .error _ => [TaskAction.sleep 10]

/-- The events emitted by the background task spawned by `setup_updater`
(updater.rs lines 21–43): on `Ok(Some(update))` emit `update-available` to
the main window (if present); every other outcome only logs. -/
def backgroundTaskEvents (updaterAvail : Except String Unit)
    (checkResult : Except String (Option Update)) (mainWindow : Bool) :
    List Event :=
  match updaterAvail with
  | .error _ => []
  | .ok _ =>
    match checkResult with
    | .ok (some update) =>
      if mainWindow then [Event.updateAvailable (toUpdateInfo update)] else []
    | .ok none => []
    | .error _ => []

/-- `setup_updater` (updater.rs lines 13–47): spawn the background task and
return `Ok(())` unconditionally. -/
def setup_updater (updaterAvail : Except String Unit)
    (checkResult : Except String (Option Update)) (mainWindow : Bool) :
    (List TaskAction × List Event) × Except String Unit :=
  ((backgroundTaskActions updaterAvail checkResult,
    backgroundTaskEvents updaterAvail checkResult mainWindow),
   .ok ())

/-- The scenario metadata of spec §8: version 2.0.0 over 1.5.0 with an
advertised download size of 1000 bytes. -/
def sampleUpdate : Update :=
  { version := "2.0.0"
    current_version := "1.5.0"
    body := none
    date := none
    download_size := some 1000 }

/-- A check result whose version equals the running version. -/
def sameVersionUpdate : Update :=
  { version := "1.0.0"
    current_version := "1.0.0"
    body := none
    date := none
    download_size := none }

/-! ## Helper lemmas -/

/-- `(d / t) * 100` is monotone in `d` for a nonnegative (natural) total. -/
theorem div_cast_mul_hundred_mono {d d' t : Nat} (h : d ≤ d') :
    (d : ℚ) / (t : ℚ) * 100 ≤ (d' : ℚ) / (t : ℚ) * 100 := by
  rcases Nat.eq_zero_or_pos t with h0 | hpos
  · subst h0; simp
  · have ht : (0 : ℚ) < (t : ℚ) := by exact_mod_cast hpos
    have hd : (d : ℚ) ≤ (d' : ℚ) := by exact_mod_cast h
    gcongr

/-- For a fixed pair of totals, the per-chunk percentage is monotone in the
accumulated byte count. -/
theorem chunkProgress_mono (cl ts : Option Nat) {d d' : Nat} (h : d ≤ d') :
    chunkProgress d cl ts ≤ chunkProgress d' cl ts := by
  rcases cl with _ | total
  · rcases ts with _ | size
    · simp [chunkProgress]
    · exact div_cast_mul_hundred_mono h
  · exact div_cast_mul_hundred_mono h

/-- Every computed percentage is nonnegative. -/
theorem chunkProgress_nonneg (d : Nat) (cl ts : Option Nat) :
    0 ≤ chunkProgress d cl ts := by
  rcases cl with _ | total
  · rcases ts with _ | size
    · simp [chunkProgress]
    · simp only [chunkProgress]
      positivity
  · simp only [chunkProgress]
    positivity

/-- Over a chunk stream in which every chunk reports the same content
length, the percentage log starting from `d` accumulated bytes is bounded
below by the percentage at `d` and is chained by `≤`. -/
theorem progressLog_chain (cl ts : Option Nat) :
    ∀ (lens : List Nat) (d : Nat),
      List.Chain (· ≤ ·) (chunkProgress d cl ts)
        (progressLog d ts (lens.map (fun l => (l, cl))))
  | [], _ => List.Chain.nil
  | a :: t, d => by
    simp only [List.map_cons, progressLog]
    exact List.Chain.cons (chunkProgress_mono cl ts (Nat.le_add_right d a))
      (progressLog_chain cl ts t (d + a))

/-- Every entry of any percentage log is nonnegative. -/
theorem progressLog_nonneg (ts : Option Nat) :
    ∀ (chunks : List (Nat × Option Nat)) (d : Nat) (p : ℚ),
      p ∈ progressLog d ts chunks → 0 ≤ p
  | [], _, _, h => by simp [progressLog] at h
  | (a, cl) :: t, d, p, h => by
    simp only [progressLog, List.mem_cons] at h
    rcases h with h | h
    · exact h ▸ chunkProgress_nonneg (d + a) cl ts
    · exact progressLog_nonneg ts t (d + a) p h

/-- When neither total is known, every chunk reports `0`. -/
theorem progressLog_no_total (lens : List Nat) :
    ∀ d : Nat, progressLog d none (lens.map (fun l => (l, none))) =
      lens.map (fun _ => (0 : ℚ)) := by
  induction lens with
  | nil => intro d; rfl
  | cons a t ih =>
    intro d
    simp only [List.map_cons, progressLog, chunkProgress]
    exact congrArg _ (ih (d + a))

/-! ## Claims -/

/-- **C2** (confirmed).  For every chunk, the percent is
`bytes_downloaded / total * 100` with the total taken from the chunk's
reported content length when present (the metadata size is then ignored),
otherwise from the metadata's advertised download size; when neither is
known every chunk of the download reports `0.0`.  For 4 chunks of 250 bytes
with total 1000 the computed sequence is `[25, 50, 75, 100]`. -/
theorem install_update_progress_percent_formula (d total : Nat)
    (ts : Option Nat) (lens : List Nat) :
    chunkProgress d (some total) ts = (d : ℚ) / (total : ℚ) * 100
    ∧ chunkProgress d none (some total) = (d : ℚ) / (total : ℚ) * 100
    ∧ progressLog 0 none (lens.map (fun l => (l, none)))
        = lens.map (fun _ => (0 : ℚ))
    ∧ (install_update (.ok ()) (.ok (some sampleUpdate)) true
        [(250, some 1000), (250, some 1000), (250, some 1000), (250, some 1000)]
        (.ok ())).2.1 = [25, 50, 75, 100] := by
  refine ⟨rfl, rfl, progressLog_no_total lens 0, ?_⟩
  show progressLog 0 (some 1000)
      [(250, some 1000), (250, some 1000), (250, some 1000), (250, some 1000)]
      = [25, 50, 75, 100]
  norm_num [progressLog, chunkProgress]

/-- **C7** counterexample.  The scheduled startup check with a negative
result emits nothing at all: in particular no `no-update-available` message,
contradicting "exactly one no-update-available … for both the manual check
and the scheduled startup check". -/
theorem startup_negative_check_emits_nothing :
    backgroundTaskEvents (.ok ()) (.ok none) true = []
    ∧ Event.noUpdateAvailable ∉ backgroundTaskEvents (.ok ()) (.ok none) true :=
  ⟨rfl, by simp [backgroundTaskEvents]⟩

/-- **C7** (amended).  A manual check completing with a negative result
emits exactly one `no-update-available` and zero `update-available`
messages when the main window exists; the scheduled startup check emits no
message at all on a negative result. -/
theorem negative_check_emission (w : Bool) :
    (check_for_updates (.ok ()) (.ok none) true).1 = [Event.noUpdateAvailable]
    ∧ (check_for_updates (.ok ()) (.ok none) true).1.filter Event.isAvailableMsg = []
    ∧ backgroundTaskEvents (.ok ()) (.ok none) w = [] := by
  refine ⟨rfl, rfl, rfl⟩

/-- **C8** (confirmed).  `install_update` always re-checks before
downloading: when the fresh check reports no update it fails with the
string `"No update available"`, emits nothing and computes no progress; and
a download can only start when the fresh check returned an update. -/
theorem install_update_rechecks_before_download (ua : Except String Unit)
    (cr : Except String (Option Update)) (w : Bool)
    (chunks : List (Nat × Option Nat)) (dl : Except String Unit) :
    install_update (.ok ()) (.ok none) w chunks dl
      = ([], [], .error "No update available")
    ∧ (Event.updateDownloadStart ∈ (install_update ua cr w chunks dl).1 →
        ∃ u, cr = .ok (some u)) := by
  constructor
  · rfl
  · intro h
    rcases ua with e | _
    · simp [install_update] at h
    · rcases cr with e | u
      · simp [install_update] at h
      · rcases u with _ | u
        · simp [install_update] at h
        · exact ⟨u, rfl⟩

/-- **C8** witness: the no-update branch fails as stated, and the download
branch's precondition is satisfiable. -/
theorem install_update_rechecks_before_download_witness :
    install_update (.ok ()) (.ok none) true [] (.ok ())
      = ([], [], .error "No update available")
    ∧ ∃ u, (.ok (some sampleUpdate) : Except String (Option Update)) = .ok (some u) :=
  ⟨(install_update_rechecks_before_download (.ok ()) (.ok (some sampleUpdate))
      true [] (.ok ())).1,
   (install_update_rechecks_before_download (.ok ()) (.ok (some sampleUpdate))
      true [] (.ok ())).2 (by simp [install_update])⟩

/-- **C1** counterexample.  A second `install_update` invocation made while
another is in flight is, in the source, just another evaluation of a
function that reads no process-wide state: with an update available it
emits `update-download-start` (it does start a download) and returns the
platform result `Ok(())` — it does not fail with `Busy`. -/
theorem install_update_overlapping_call_starts_download :
    (install_update (.ok ()) (.ok (some sampleUpdate)) true
      [(250, some 1000)] (.ok ())).1 = [Event.updateDownloadStart]
    ∧ (install_update (.ok ()) (.ok (some sampleUpdate)) true
      [(250, some 1000)] (.ok ())).2.2 = .ok () :=
  ⟨rfl, rfl⟩

/-- **C1** (amended).  `install_update` has no in-flight guard: every
invocation whose fresh check returns an update — in particular a second
invocation made while another is in flight — starts its own download
(emitting `update-download-start` when the main window exists) and returns
the platform download result unchanged; no invocation is rejected with
`Busy`. -/
theorem install_update_no_in_flight_guard (u : Update)
    (chunks : List (Nat × Option Nat)) (dl : Except String Unit) :
    Event.updateDownloadStart
        ∈ (install_update (.ok ()) (.ok (some u)) true chunks dl).1
    ∧ (install_update (.ok ()) (.ok (some u)) true chunks dl).2.2 = dl := by
  exact ⟨by simp [install_update], rfl⟩

/-- **C3** counterexample.  On a complete 4-chunk download the emitted event
list is just `[update-download-start]`: no `update-download-progress`
message is emitted on any tick, and the final 100% tick is not delivered. -/
theorem install_update_no_progress_event_on_full_download :
    (install_update (.ok ()) (.ok (some sampleUpdate)) true
      [(250, some 1000), (250, some 1000), (250, some 1000), (250, some 1000)]
      (.ok ())).1 = [Event.updateDownloadStart]
    ∧ Event.updateDownloadProgress 100
        ∉ (install_update (.ok ()) (.ok (some sampleUpdate)) true
          [(250, some 1000), (250, some 1000), (250, some 1000), (250, some 1000)]
          (.ok ())).1 :=
  ⟨rfl, by simp [install_update]⟩

/-- **C3** (amended).  `install_update` emits no `update-download-progress`
message to the UI on any tick of any download; the per-chunk percentages
are computed but only logged inside the progress closure. -/
theorem install_update_emits_no_progress_events (ua : Except String Unit)
    (cr : Except String (Option Update)) (w : Bool)
    (chunks : List (Nat × Option Nat)) (dl : Except String Unit) :
    (install_update ua cr w chunks dl).1.filter Event.isProgressMsg = [] := by
  rcases ua with e | _
  · rfl
  · rcases cr with e | u
    · rfl
    · rcases u with _ | u
      · rfl
      · cases w <;> rfl

/-- **C4** counterexample.  A successful download-install run ends with no
terminal message at all: the event list is `[update-download-start]`,
containing neither `update-installed` nor `update-failed`. -/
theorem install_update_success_run_has_no_terminal_event :
    (install_update (.ok ()) (.ok (some sampleUpdate)) true
      [(250, some 1000), (250, some 1000), (250, some 1000), (250, some 1000)]
      (.ok ())).1.filter Event.isTerminalMsg = []
    ∧ Event.updateInstalled
        ∉ (install_update (.ok ()) (.ok (some sampleUpdate)) true
          [(250, some 1000), (250, some 1000), (250, some 1000), (250, some 1000)]
          (.ok ())).1 :=
  ⟨rfl, by simp [install_update]⟩

/-- **C4** (amended).  No download-install run emits any terminal message
(`update-installed` or `update-failed`): the outcome is reported only to the
direct caller — `Ok(())` on success, and on failure the platform download
error is returned as a string with no broadcast. -/
theorem install_update_emits_no_terminal_events (ua : Except String Unit)
    (cr : Except String (Option Update)) (u : Update) (w : Bool)
    (chunks : List (Nat × Option Nat)) (dl : Except String Unit) :
    (install_update ua cr w chunks dl).1.filter Event.isTerminalMsg = []
    ∧ (install_update (.ok ()) (.ok (some u)) w chunks dl).2.2 = dl := by
  constructor
  · rcases ua with e | _
    · rfl
    · rcases cr with e | v
      · rfl
      · rcases v with _ | v
        · rfl
        · cases w <;> rfl
  · rfl

/-- **C5** counterexample.  The computed percent is not clamped to
`[0.0, 100.0]`: a single 250-byte chunk against a reported content length
of 100 yields 250%. -/
theorem progress_percent_unclamped_above_100 :
    progressLog 0 none [(250, some 100)] = [250]
    ∧ ¬ (250 : ℚ) ≤ 100 := by
  constructor
  · norm_num [progressLog, chunkProgress]
  · norm_num

/-- **C5** (amended).  Within one download in which every tick reports the
same content length (the metadata size being fixed for the download), the
sequence of computed percentages is non-decreasing and every percentage is
at least `0.0`; the percentage is not clamped above and can exceed `100.0`
when the downloaded bytes exceed the total. -/
theorem progress_percent_monotone_and_nonneg (cl ts : Option Nat)
    (lens : List Nat) :
    List.Chain' (· ≤ ·) (progressLog 0 ts (lens.map (fun l => (l, cl))))
    ∧ ∀ p ∈ progressLog 0 ts (lens.map (fun l => (l, cl))), 0 ≤ p := by
  constructor
  · cases lens with
    | nil => exact trivial
    | cons a t =>
      simp only [List.map_cons, progressLog]
      exact progressLog_chain cl ts t (0 + a)
  · intro p hp
    exact progressLog_nonneg ts _ 0 p hp

/-- **C5** amended-claim witness on the spec's 1000-byte scenario. -/
theorem progress_percent_monotone_and_nonneg_witness :
    List.Chain' (· ≤ ·)
      (progressLog 0 none ([250, 250].map (fun l => (l, some 1000))))
    ∧ (0 : ℚ) ≤ 25 :=
  ⟨(progress_percent_monotone_and_nonneg (some 1000) none [250, 250]).1,
   (progress_percent_monotone_and_nonneg (some 1000) none [250, 250]).2 25
     (by norm_num [progressLog, chunkProgress])⟩

/-- **C6** counterexample.  A check result whose version equals the running
version is reported as an available update, not as "no update":
`check_for_updates` emits `update-available` and returns `Some`. -/
theorem equal_version_reported_available :
    sameVersionUpdate.version = sameVersionUpdate.current_version
    ∧ check_for_updates (.ok ()) (.ok (some sameVersionUpdate)) true
        = ([Event.updateAvailable (toUpdateInfo sameVersionUpdate)],
           .ok (some (toUpdateInfo sameVersionUpdate))) :=
  ⟨rfl, rfl⟩

/-- **C6** (amended).  `check_for_updates` performs no version comparison:
any `Some` metadata returned by the platform check is reported as an
available update — `update-available` is emitted (when the main window
exists) and the metadata is returned — even when its version equals the
running version. -/
theorem check_for_updates_no_version_guard (u : Update)
    (_h : u.version = u.current_version) :
    check_for_updates (.ok ()) (.ok (some u)) true
      = ([Event.updateAvailable (toUpdateInfo u)], .ok (some (toUpdateInfo u))) :=
  rfl

/-- **C6** amended-claim witness at an equal-version metadata. -/
theorem check_for_updates_no_version_guard_witness :
    check_for_updates (.ok ()) (.ok (some sameVersionUpdate)) true
      = ([Event.updateAvailable (toUpdateInfo sameVersionUpdate)],
         .ok (some (toUpdateInfo sameVersionUpdate))) :=
  check_for_updates_no_version_guard sameVersionUpdate rfl

/-- **C9** counterexample.  When the updater handle is unavailable the
spawned task performs no check at all — the scheduled background check does
not run "exactly once" in every process lifetime. -/
theorem startup_check_skipped_when_updater_unavailable :
    (backgroundTaskActions (.error "updater unavailable")
      (.ok none)).count TaskAction.check = 0 := by
  decide

/-- **C9** (amended).  The scheduled background check runs at most once per
process lifetime — exactly once when the updater handle is available and
zero times otherwise — it starts only after the fixed 10-second startup
delay (the first action of the task trace), and, whatever the check's
outcome (failure included), the trace contains no second check: failures
are never retried automatically. -/
theorem startup_check_at_most_once_after_delay (ua : Except String Unit)
    (cr : Except String (Option Update)) (s : String) :
    (backgroundTaskActions ua cr).count TaskAction.check ≤ 1
    ∧ (backgroundTaskActions ua cr).head? = some (TaskAction.sleep 10)
    ∧ backgroundTaskActions (.ok ()) cr = [TaskAction.sleep 10, TaskAction.check]
    ∧ backgroundTaskActions (.error s) cr = [TaskAction.sleep 10] := by
  refine ⟨?_, ?_, rfl, rfl⟩
  · rcases ua with e | u
    · show List.count TaskAction.check [TaskAction.sleep 10] ≤ 1
      decide
    · show List.count TaskAction.check [TaskAction.sleep 10, TaskAction.check] ≤ 1
      decide
  · rcases ua with e | _ <;> rfl

/-- **C10** (confirmed).  `setup_updater` always returns `Ok(())`; every
event the startup path can emit is an `update-available`; and a startup
check that is negative, fails, or cannot obtain the updater handle emits no
event at all. -/
theorem setup_updater_always_ok_and_quiet_on_failure (ua : Except String Unit)
    (cr : Except String (Option Update)) (w : Bool) (s : String) :
    (setup_updater ua cr w).2 = .ok ()
    ∧ (backgroundTaskEvents ua cr w).all Event.isAvailableMsg = true
    ∧ backgroundTaskEvents ua (.ok none) w = []
    ∧ backgroundTaskEvents ua (.error s) w = []
    ∧ backgroundTaskEvents (.error s) cr w = [] := by
  refine ⟨rfl, ?_, ?_, ?_, rfl⟩
  · rcases ua with e | _
    · rfl
    · rcases cr with e | u
      · rfl
      · rcases u with _ | u
        · rfl
        · cases w <;> simp [backgroundTaskEvents, Event.isAvailableMsg]
  · rcases ua with e | _ <;> rfl
  · rcases ua with e | _ <;> rfl

end Updater
